import Mathlib

/-!
Shallow embedding of `src/SupplementCheck.tsx` — the date-keyed persistence
and day-rollover reconciliation logic of the supplement check widget.

The component keeps three booleans (`morning`, `lunch`, `dinner`) in React
state together with `lastDate`, persists them as JSON under the single
localStorage key `supplement-check-data`, and reconciles against the
persisted record on load / visibility change (`loadData`) and on every
user interaction (`toggleCheck`).

Dynamically-typed JavaScript values reaching the state (via `JSON.parse`
and verbatim `setChecks(storedData.checks)`) are modelled by `JsValue`.
-/

/-- A JavaScript value as it can appear in this program: the result of
`JSON.parse`, a field read off such a result (which may be `undefined`),
or one of the object literals the component builds itself. -/
inductive JsValue where
  | undefined
  | null
  | bool (b : Bool)
  | num (n : Int)
  | str (s : String)
  | arr (elems : List JsValue)
  | obj (fields : List (String × JsValue))

/-- First-match lookup of an own property on an object's field list
(JavaScript object literals and `JSON.parse` results keep insertion order;
duplicate keys cannot arise from the writes this program performs). -/
def objGet : List (String × JsValue) → String → JsValue
  | [], _ => .undefined
  | (k', v) :: rest, k => if k' = k then v else objGet rest k

/-- JavaScript property access `v.k` / `v[k]`.  Throws (TypeError) on
`null`/`undefined`; yields the own property or `undefined` on objects.
On the remaining primitives and arrays it yields `undefined`: none of the
keys this program reads (`date`, `checks`, `morning`, `lunch`, `dinner`)
exists on a boxed primitive or on an array. -/
def jsGetProp : JsValue → String → Except Unit JsValue
  | .undefined, _ => .error ()
  | .null, _ => .error ()
  | .obj fields, k => .ok (objGet fields k)
  | _, _ => .ok .undefined

/-- JavaScript truthiness (the program applies `!` only to `checks[slot]`). -/
def jsTruthy : JsValue → Bool
  | .undefined => false
  | .null => false
  | .bool b => b
  | .num n => n != 0
  | .str s => !s.isEmpty
  | .arr _ => true
  | .obj _ => true

/-- JavaScript logical negation `!v`. -/
def jsNot (v : JsValue) : JsValue := .bool (!jsTruthy v)

/-- JavaScript strict equality `v === s` / inequality against a string
value: true exactly when `v` is the same string. -/
def jsStrictEqStr (v : JsValue) (s : String) : Bool :=
  match v with
  | .str t => t == s
  | _ => false

/-- Replace an existing key in place (object literals keep the original
key position when a later entry overwrites it), else append. -/
def setField : List (String × JsValue) → String → JsValue → List (String × JsValue)
  | [], k, v => [(k, v)]
  | (k', w) :: rest, k, v =>
    if k' = k then (k, v) :: rest else (k', w) :: setField rest k v

/-- The object literal `{...o, [k]: v}`.  Spreading `null`, `undefined` or
a non-object contributes no own enumerable properties relevant here (the
program never spreads a string or an array whose index properties could
collide with the slot keys it then reads). -/
def jsSpreadSet (o : JsValue) (k : String) (v : JsValue) : JsValue :=
  match o with
  | .obj fields => .obj (setField fields k v)
  | _ => .obj [(k, v)]

/-! ### Dates and `getTodayString`

A JavaScript `Date` is a count of milliseconds since the Unix epoch, UTC.
`toISOString()` formats the UTC calendar date; the local calendar date
additionally applies the timezone offset.  `tzOffsetMillis` is the number
of milliseconds to ADD to UTC to obtain local wall-clock time (the
negation of JavaScript's `getTimezoneOffset()` in minutes; +32400000 for
JST, UTC+9). -/

structure Timestamp where
  utcMillis : Int
  tzOffsetMillis : Int

/-- Proleptic-Gregorian civil date from a count of days since 1970-01-01
(Howard Hinnant's `civil_from_days` algorithm): `(year, month, day)`. -/
def civilFromDays (z0 : Int) : Int × Int × Int :=
  let z := z0 + 719468
  let era := z.fdiv 146097
  let doe := z - era * 146097
  let yoe := (doe - doe / 1460 + doe / 36524 - doe / 146096) / 365
  let y := yoe + era * 400
  let doy := doe - (365 * yoe + yoe / 4 - yoe / 100)
  let mp := (5 * doy + 2) / 153
  let d := doy - (153 * mp + 2) / 5 + 1
  let m := mp + (if mp < 10 then 3 else -9)
  (y + (if m ≤ 2 then 1 else 0), m, d)

/-- Days since 1970-01-01 of a civil date (Hinnant's `days_from_civil`);
used to build concrete timestamps in witnesses. -/
def daysFromCivil (y m d : Int) : Int :=
  let y' := y - (if m ≤ 2 then 1 else 0)
  let era := y'.fdiv 400
  let yoe := y' - era * 400
  let mp := m + (if m > 2 then -3 else 9)
  let doy := (153 * mp + 2) / 5 + d - 1
  let doe := yoe * 365 + yoe / 4 - yoe / 100 + doy
  era * 146097 + doe - 719468

/-- Zero-pad to two digits, as `toISOString` does for month and day. -/
def pad2 (n : Int) : String :=
  if n < 10 then "0" ++ toString n else toString n

/-- `YYYY-MM-DD` rendering of a civil date (years here are four-digit). -/
def civilToString (ymd : Int × Int × Int) : String :=
  toString ymd.1 ++ "-" ++ pad2 ymd.2.1 ++ "-" ++ pad2 ymd.2.2

/-- `getTodayString = () => new Date().toISOString().split('T')[0]`:
the UTC calendar date of `now`, formatted `YYYY-MM-DD`. -/
def getTodayString (now : Timestamp) : String :=
  civilToString (civilFromDays (now.utcMillis.fdiv 86400000))

/-- Modelled from the spec: the spec (§3, §4.1) keys records by the
calendar date of `now` "in the local timezone", which the source does not
compute anywhere; it is the UTC millisecond count shifted by the local
offset before taking the calendar date. -/
def localDateString (now : Timestamp) : String :=
  civilToString (civilFromDays ((now.utcMillis + now.tzOffsetMillis).fdiv 86400000))

/-! ### Component state, persistence environment, operations -/

/-- The typed shape `CheckState` of the source: exactly three booleans. -/
structure CheckState where
  morning : Bool
  lunch : Bool
  dinner : Bool
deriving DecidableEq

/-- The object literal `{morning: ..., lunch: ..., dinner: ...}`. -/
def CheckState.toJs (c : CheckState) : JsValue :=
  .obj [("morning", .bool c.morning), ("lunch", .bool c.lunch), ("dinner", .bool c.dinner)]

/-- `{morning: false, lunch: false, dinner: false}` as built by the
`useState` initialiser and by both reset branches. -/
def allFalseJs : JsValue := CheckState.toJs ⟨false, false, false⟩

/-- The record `{date: today, checks: {morning:false,lunch:false,dinner:false}}`
built by the rollover reset branches (`newData` in the source). -/
def newDataJs (today : String) : JsValue :=
  .obj [("date", .str today), ("checks", allFalseJs)]

inductive TimeSlot where
  | morning
  | lunch
  | dinner

/-- The string a `TimeSlot` is in the source (`'morning' | 'lunch' | 'dinner'`). -/
def slotKey : TimeSlot → String
  | .morning => "morning"
  | .lunch => "lunch"
  | .dinner => "dinner"

/-- A well-formed `CheckState` with exactly one slot's boolean negated:
the intended effect of a same-day toggle. -/
def CheckState.flip (c : CheckState) : TimeSlot → CheckState
  | .morning => { c with morning := !c.morning }
  | .lunch => { c with lunch := !c.lunch }
  | .dinner => { c with dinner := !c.dinner }

/-- Does a JSON value have the exact persisted-record shape the spec
prescribes for the store: `{date: d, checks: {morning: bool, lunch: bool,
dinner: bool}}` with the given date string? -/
def isWfRecord (v : JsValue) (d : String) : Bool :=
  match v with
  | .obj [("date", .str d'), ("checks", .obj
      [("morning", .bool _), ("lunch", .bool _), ("dinner", .bool _)])] => d' == d
  | _ => false

/-- The component's React state: `checks` holds whatever value was last
passed to `setChecks` (the source assigns `storedData.checks` verbatim, so
this is a `JsValue`, not necessarily a well-formed `CheckState`);
`lastDate` only ever receives date strings. -/
structure AppState where
  checks : JsValue
  lastDate : String
  isLoaded : Bool

/-- Component state right after mount: `useState` initialisers
(all-false checks, `lastDate = getTodayString()` at render time). -/
def initState (now : Timestamp) : AppState :=
  { checks := allFalseJs, lastDate := getTodayString now, isLoaded := false }

/-- What `localStorage.getItem('supplement-check-data')` returned, when it
did not throw and was not `null`: a string `JSON.parse` rejects
(`invalid`), or one it parses to the JSON value `v`. -/
inductive StoredRaw where
  | invalid
  | value (v : JsValue)

/-- Behaviour of the persistence store during one operation:
`read = .error ()` models `getItem` throwing (store unavailable);
`writeOk = false` models `setItem` throwing (e.g. quota exceeded). -/
structure Env where
  read : Except Unit (Option StoredRaw)
  writeOk : Bool

/-- Result of one operation: the React state after it, the values
successfully written to the store (in order), and whether an exception
propagated out of the operation to its caller. -/
structure Outcome where
  state : AppState
  writes : List JsValue
  threw : Bool

/-- `loadData` (the `reconcile` of the spec), lines 33–60 of the source.
`localStorage.getItem` sits OUTSIDE the `try`; the `try` wraps
`JSON.parse`, the property accesses, the state updates and the reset
branch's `setItem`; `setIsLoaded(true)` runs after the `try`/`catch` and
after the empty-store branch.  Partial state updates made before a caught
exception stand. -/
def loadData (s : AppState) (env : Env) (now : Timestamp) : Outcome :=
  let today := getTodayString now
  match env.read with
  | .error _ =>
    -- getItem threw before the try block: the exception escapes loadData
    ⟨s, [], true⟩
  | .ok none =>
    -- no snapshot: only setLastDate(today), checks untouched
    ⟨{ s with lastDate := today, isLoaded := true }, [], false⟩
  | .ok (some raw) =>
    match raw with
    | .invalid =>
      -- JSON.parse threw; caught, logged, nothing else happens
      ⟨{ s with isLoaded := true }, [], false⟩
    | .value storedData =>
      match jsGetProp storedData "date" with
      | .error _ =>
        -- storedData.date threw (parse produced null); caught
        ⟨{ s with isLoaded := true }, [], false⟩
      | .ok d =>
        if jsStrictEqStr d today then
          -- same day: restore verbatim; the guard makes storedData.date
          -- the very string `today`, so setLastDate receives `today`
          match jsGetProp storedData "checks" with
          | .error _ => ⟨{ s with isLoaded := true }, [], false⟩
          | .ok c =>
            ⟨{ s with checks := c, lastDate := today, isLoaded := true }, [], false⟩
        else
          -- date rolled over (or date field is not today's string): reset
          let s' := { s with checks := allFalseJs, lastDate := today }
          if env.writeOk then
            ⟨{ s' with isLoaded := true }, [newDataJs today], false⟩
          else
            -- setItem threw inside the try: caught, state updates stand
            ⟨{ s' with isLoaded := true }, [], false⟩

/-- `toggleCheck` (the `toggle` of the spec), lines 76–98 of the source.
No `try`/`catch` here: a throwing `setItem` escapes to the caller, but the
`setChecks`/`setLastDate` updates issued before it stand. -/
def toggleCheck (s : AppState) (env : Env) (slot : TimeSlot) (now : Timestamp) : Outcome :=
  let today := getTodayString now
  if today ≠ s.lastDate then
    -- date changed under us: reset, persist, return without toggling
    let s' := { s with checks := allFalseJs, lastDate := today }
    if env.writeOk then
      ⟨s', [newDataJs today], false⟩
    else
      ⟨s', [], true⟩
  else
    -- {...checks, [slot]: !checks[slot]}; checks[slot] throws when checks
    -- is null/undefined, and that throw escapes toggleCheck
    match jsGetProp s.checks (slotKey slot) with
    | .error _ => ⟨s, [], true⟩
    | .ok cur =>
      let newChecks := jsSpreadSet s.checks (slotKey slot) (jsNot cur)
      let s' := { s with checks := newChecks }
      let dataToStore : JsValue := .obj [("date", .str today), ("checks", newChecks)]
      if env.writeOk then
        ⟨s', [dataToStore], false⟩
      else
        ⟨s', [], true⟩

/-! ### Concrete fixtures used by witnesses and counterexamples -/

/-- 2024-05-01T00:00:00Z, observed from UTC+9 (JST). -/
def t0 : Timestamp := ⟨daysFromCivil 2024 5 1 * 86400000, 32400000⟩

/-- A same-day state for `t0`: all unchecked on 2024-05-01. -/
def s0 : AppState := ⟨allFalseJs, "2024-05-01", true⟩

/-- A loaded state from the previous day: morning and dinner taken on
2024-04-30. -/
def sPrev : AppState := ⟨CheckState.toJs ⟨true, false, true⟩, "2024-04-30", true⟩

/-- A same-day state for `t0` with the morning supplement taken. -/
def s1 : AppState := ⟨CheckState.toJs ⟨true, false, false⟩, "2024-05-01", true⟩

/-- A working store holding `sPrev`'s record, stale relative to `t0`. -/
def envC1 : Env :=
  ⟨.ok (some (.value (.obj [("date", .str "2024-04-30"),
    ("checks", CheckState.toJs ⟨true, false, true⟩)]))), true⟩

/-- A working store holding `s1`'s record, dated today relative to `t0`. -/
def envC8 : Env :=
  ⟨.ok (some (.value (.obj [("date", .str (getTodayString t0)),
    ("checks", CheckState.toJs ⟨true, false, false⟩)]))), true⟩

/-- A working store holding a record dated today relative to `t0` whose
`checks` object has only the `morning` key. -/
def envC6 : Env :=
  ⟨.ok (some (.value (.obj [("date", .str (getTodayString t0)),
    ("checks", .obj [("morning", .bool true)])]))), true⟩

/-! ### Claim theorems -/

/-- C3: the claim says the date string used as "today" (and stored in the
record's `date` field) is the calendar date of `now` in the LOCAL
timezone.  The source computes it with `toISOString()`, which formats the
UTC calendar date: at 2024-05-01T23:00Z seen from UTC+9 the local calendar
date is already 2024-05-02, but the code's key is 2024-05-01. -/
theorem C3_today_is_utc_not_local :
    getTodayString ⟨daysFromCivil 2024 5 1 * 86400000 + 23 * 3600000, 32400000⟩ = "2024-05-01" ∧
    localDateString ⟨daysFromCivil 2024 5 1 * 86400000 + 23 * 3600000, 32400000⟩ = "2024-05-02" ∧
    getTodayString ⟨daysFromCivil 2024 5 1 * 86400000 + 23 * 3600000, 32400000⟩ ≠
      localDateString ⟨daysFromCivil 2024 5 1 * 86400000 + 23 * 3600000, 32400000⟩ := by
  refine ⟨by decide, by decide, by decide⟩

/-- C9: with no persisted snapshot, `loadData` from the freshly mounted
state yields the all-false state dated today and performs no store
write. -/
theorem C9_empty_store_no_write (env : Env) (now : Timestamp)
    (hread : env.read = .ok none) :
    loadData (initState now) env now =
      ⟨⟨allFalseJs, getTodayString now, true⟩, [], false⟩ := by
  obtain ⟨r, w⟩ := env
  simp only at hread
  subst hread
  rfl

/-- Witness for C9 at the concrete timestamp `t0` (2024-05-01). -/
theorem C9_empty_store_no_write_witness :
    loadData (initState t0) ⟨.ok none, true⟩ t0 =
      ⟨⟨allFalseJs, getTodayString t0, true⟩, [], false⟩ :=
  C9_empty_store_no_write ⟨.ok none, true⟩ t0 rfl

/-- Claim C1: given a persisted record dated `D1` (with any checks) and an
in-memory state whose current date matches it, calling reconcile
(`loadData`) or toggle (`toggleCheck`) at a time whose date `D2` differs
from `D1` sets the in-memory checks to all-false, sets the current date to
`D2`, and writes the record `{date: D2, checks: all-false}` to the
store. -/
theorem C1_rollover_resets (s : AppState) (env : Env) (now : Timestamp)
    (D1 : String) (ch : JsValue) (slot : TimeSlot)
    (hread : env.read = .ok (some (.value (.obj [("date", .str D1), ("checks", ch)]))))
    (hW : env.writeOk = true)
    (hld : s.lastDate = D1)
    (hne : D1 ≠ getTodayString now) :
    loadData s env now =
      ⟨⟨allFalseJs, getTodayString now, true⟩, [newDataJs (getTodayString now)], false⟩ ∧
    toggleCheck s env slot now =
      ⟨⟨allFalseJs, getTodayString now, s.isLoaded⟩, [newDataJs (getTodayString now)], false⟩ := by
  obtain ⟨r, w⟩ := env
  obtain ⟨c0, l0, i0⟩ := s
  simp only at hread hW hld
  subst hread hW hld
  constructor
  · simp [loadData, jsGetProp, objGet, jsStrictEqStr, hne]
  · simp [toggleCheck, Ne.symm hne]

/-- Witness for C1: stale record dated 2024-04-30, call on 2024-05-01. -/
theorem C1_rollover_resets_witness :
    loadData sPrev envC1 t0 =
      ⟨⟨allFalseJs, getTodayString t0, true⟩, [newDataJs (getTodayString t0)], false⟩ ∧
    toggleCheck sPrev envC1 .morning t0 =
      ⟨⟨allFalseJs, getTodayString t0, sPrev.isLoaded⟩, [newDataJs (getTodayString t0)], false⟩ :=
  C1_rollover_resets sPrev envC1 t0 "2024-04-30" (CheckState.toJs ⟨true, false, true⟩)
    .morning rfl rfl rfl (by decide)

/-- Claim C2: a toggle issued when today's date differs from the current
in-memory date performs only the reset (all-false state for today,
persisted) and discards the requested toggle: the pressed slot is `false`
in the resulting state regardless of its prior value. -/
theorem C2_stale_toggle_discarded (s : AppState) (env : Env) (slot : TimeSlot) (now : Timestamp)
    (hW : env.writeOk = true)
    (hne : getTodayString now ≠ s.lastDate) :
    toggleCheck s env slot now =
      ⟨⟨allFalseJs, getTodayString now, s.isLoaded⟩, [newDataJs (getTodayString now)], false⟩ ∧
    jsGetProp (toggleCheck s env slot now).state.checks (slotKey slot) = .ok (.bool false) := by
  obtain ⟨r, w⟩ := env
  obtain ⟨c0, l0, i0⟩ := s
  simp only at hW hne
  subst hW
  have h1 : toggleCheck ⟨c0, l0, i0⟩ ⟨r, true⟩ slot now =
      ⟨⟨allFalseJs, getTodayString now, i0⟩, [newDataJs (getTodayString now)], false⟩ := by
    simp [toggleCheck, hne]
  refine ⟨h1, ?_⟩
  rw [h1]
  cases slot <;> rfl

/-- Witness for C2: toggling dinner from a 2024-04-30 state on 2024-05-01
resets everything and leaves dinner unchecked. -/
theorem C2_stale_toggle_discarded_witness :
    toggleCheck sPrev ⟨.ok none, true⟩ .dinner t0 =
      ⟨⟨allFalseJs, getTodayString t0, sPrev.isLoaded⟩, [newDataJs (getTodayString t0)], false⟩ ∧
    jsGetProp (toggleCheck sPrev ⟨.ok none, true⟩ .dinner t0).state.checks (slotKey .dinner)
      = .ok (.bool false) :=
  C2_stale_toggle_discarded sPrev ⟨.ok none, true⟩ .dinner t0 rfl (by decide)

/-- Claim C7: from a same-day state with well-formed checks `c`, toggling
slot `X` flips exactly `X` (the other two slots unchanged) and persists
`{date: today, checks: newChecks}`. -/
theorem C7_same_day_toggle_flips_one (s : AppState) (env : Env) (slot : TimeSlot)
    (now : Timestamp) (c : CheckState)
    (hc : s.checks = c.toJs)
    (hW : env.writeOk = true)
    (hd : s.lastDate = getTodayString now) :
    toggleCheck s env slot now =
      ⟨⟨(c.flip slot).toJs, s.lastDate, s.isLoaded⟩,
       [.obj [("date", .str (getTodayString now)), ("checks", (c.flip slot).toJs)]], false⟩ := by
  obtain ⟨r, w⟩ := env
  obtain ⟨c0, l0, i0⟩ := s
  obtain ⟨m, l, d⟩ := c
  simp only at hc hW hd
  subst hc hW hd
  cases slot <;>
    simp [toggleCheck, CheckState.toJs, CheckState.flip, jsGetProp, objGet,
      jsSpreadSet, setField, jsNot, jsTruthy, slotKey]

/-- Witness for C7: toggling lunch on 2024-05-01 from `{morning: true}`
taken. -/
theorem C7_same_day_toggle_flips_one_witness :
    toggleCheck s1 ⟨.ok none, true⟩ .lunch t0 =
      ⟨⟨(CheckState.flip ⟨true, false, false⟩ .lunch).toJs, s1.lastDate, s1.isLoaded⟩,
       [.obj [("date", .str (getTodayString t0)),
         ("checks", (CheckState.flip ⟨true, false, false⟩ .lunch).toJs)]], false⟩ :=
  C7_same_day_toggle_flips_one s1 ⟨.ok none, true⟩ .lunch t0 ⟨true, false, false⟩
    rfl rfl (by decide)

/-- Claim C8: with a valid persisted record dated today and a consistent
in-memory state, reconcile is idempotent: it returns the state unchanged
(only the `isLoaded` flag is set), performs no store write, and a second
call yields the same state again. -/
theorem C8_same_day_reconcile_idempotent (s : AppState) (env : Env) (now : Timestamp)
    (c : CheckState)
    (hread : env.read = .ok (some (.value (.obj
      [("date", .str (getTodayString now)), ("checks", c.toJs)]))))
    (hc : s.checks = c.toJs)
    (hld : s.lastDate = getTodayString now) :
    loadData s env now = ⟨{ s with isLoaded := true }, [], false⟩ ∧
    loadData { s with isLoaded := true } env now = ⟨{ s with isLoaded := true }, [], false⟩ := by
  obtain ⟨r, w⟩ := env
  obtain ⟨c0, l0, i0⟩ := s
  simp only at hread hc hld
  subst hread hc hld
  constructor <;> simp [loadData, jsGetProp, objGet, jsStrictEqStr]

/-- Witness for C8 at 2024-05-01 with morning taken. -/
theorem C8_same_day_reconcile_idempotent_witness :
    loadData s1 envC8 t0 = ⟨{ s1 with isLoaded := true }, [], false⟩ ∧
    loadData { s1 with isLoaded := true } envC8 t0 = ⟨{ s1 with isLoaded := true }, [], false⟩ :=
  C8_same_day_reconcile_idempotent s1 envC8 t0 ⟨true, false, false⟩ rfl rfl (by decide)

/-- Claim C4 (amended): inside `loadData`, `JSON.parse` failures, property
accesses on bad parse results, and the rollover branch's store write are
all covered by the `try`/`catch`, so `loadData` never propagates an
exception when the store READ itself succeeds; but the `getItem` call sits
outside the `try` and its failure escapes, and `toggleCheck` has no
handler at all, so a failing store write there escapes to the caller. -/
theorem C4_error_handling_amended (s : AppState) (env : Env) (slot : TimeSlot)
    (now : Timestamp) :
    (∀ v, env.read = .ok v → (loadData s env now).threw = false) ∧
    (env.read = .error () → (loadData s env now).threw = true) ∧
    (env.writeOk = false → (toggleCheck s env slot now).threw = true) := by
  obtain ⟨r, w⟩ := env
  refine ⟨?_, ?_, ?_⟩
  · rintro v rfl
    rcases v with _ | (_ | sd)
    · rfl
    · rfl
    · simp only [loadData]
      rcases h : jsGetProp sd "date" with _ | d <;> simp only [h]
      split
      · rcases h2 : jsGetProp sd "checks" with _ | cc <;> simp only [h2]
      · cases w <;> rfl
  · intro h
    simp only at h
    subst h
    rfl
  · intro h
    simp only at h
    subst h
    simp only [toggleCheck]
    split
    · rfl
    · rcases h2 : jsGetProp s.checks (slotKey slot) with _ | cur
      all_goals simp [h2]

/-- Counterexample to claim C4 as stated: a quota-style `setItem` failure
during a same-day `toggleCheck` propagates out of the operation. -/
theorem C4_uncaught_write_counterexample :
    (toggleCheck s0 ⟨.ok none, false⟩ .morning t0).threw = true := by
  rfl

/-- Witness for the amended C4: a parse failure is swallowed by
`loadData`, a read failure escapes `loadData`, a write failure escapes
`toggleCheck`. -/
theorem C4_error_handling_amended_witness :
    (loadData s0 ⟨.ok (some .invalid), true⟩ t0).threw = false ∧
    (loadData s0 ⟨.error (), true⟩ t0).threw = true ∧
    (toggleCheck s0 ⟨.ok none, false⟩ .lunch t0).threw = true :=
  ⟨(C4_error_handling_amended s0 ⟨.ok (some .invalid), true⟩ .morning t0).1 (some .invalid) rfl,
   (C4_error_handling_amended s0 ⟨.error (), true⟩ .morning t0).2.1 rfl,
   (C4_error_handling_amended s0 ⟨.ok none, false⟩ .lunch t0).2.2 rfl⟩

/-- Claim C5 (amended): from the freshly mounted state, a stored value
that fails to parse, or parses to `null` (whose `.date` access throws),
leaves the state exactly as the no-snapshot case does — all-false checks
dated today; a stored value that parses but whose `date` field is not
today's string (wrong shape, missing `date`, non-object) takes the
rollover-reset branch, also yielding the all-false state for today without
throwing (though it additionally persists a fresh record); but a record
whose `date` IS today's string is restored verbatim even when its `checks`
field is missing — see the counterexample. -/
theorem C5_malformed_fallback_amended (now : Timestamp) (e1 e2 e3 : Env) (v dv : JsValue)
    (h1 : e1.read = .ok (some .invalid))
    (h2 : e2.read = .ok none)
    (h3 : e3.read = .ok (some (.value .null))) :
    (loadData (initState now) e1 now = ⟨⟨allFalseJs, getTodayString now, true⟩, [], false⟩ ∧
     loadData (initState now) e2 now = ⟨⟨allFalseJs, getTodayString now, true⟩, [], false⟩ ∧
     loadData (initState now) e3 now = ⟨⟨allFalseJs, getTodayString now, true⟩, [], false⟩) ∧
    (∀ e4 : Env, e4.read = .ok (some (.value v)) →
      jsGetProp v "date" = .ok dv → jsStrictEqStr dv (getTodayString now) = false →
      (loadData (initState now) e4 now).state = ⟨allFalseJs, getTodayString now, true⟩ ∧
      (loadData (initState now) e4 now).threw = false) := by
  obtain ⟨r1, w1⟩ := e1
  obtain ⟨r2, w2⟩ := e2
  obtain ⟨r3, w3⟩ := e3
  simp only at h1 h2 h3
  subst h1 h2 h3
  refine ⟨⟨rfl, rfl, rfl⟩, ?_⟩
  rintro ⟨r4, w4⟩ hr hd hne
  simp only at hr
  subst hr
  simp only [loadData, hd, hne, initState]
  cases w4 <;> exact ⟨rfl, rfl⟩

/-- Counterexample to claim C5 as stated: the malformed record
`{date: "2024-05-01"}` (missing the `checks` field) under today's date is
NOT treated as absent — `loadData` restores its `checks` field verbatim,
setting the in-memory checks to `undefined` rather than all-false. -/
theorem C5_missing_checks_counterexample :
    (loadData (initState t0)
        ⟨.ok (some (.value (.obj [("date", .str "2024-05-01")]))), true⟩ t0).state.checks
      = JsValue.undefined ∧
    (loadData (initState t0)
        ⟨.ok (some (.value (.obj [("date", .str "2024-05-01")]))), true⟩ t0).state.checks
      ≠ allFalseJs := by
  constructor
  · rfl
  · intro h
    exact JsValue.noConfusion (h.symm.trans rfl)

/-- Witness for the amended C5 at `t0`: parse failure, empty store, `null`
record, and the number `5` as a wrong-shape record. -/
theorem C5_malformed_fallback_amended_witness :
    (loadData (initState t0) ⟨.ok (some .invalid), true⟩ t0 =
        ⟨⟨allFalseJs, getTodayString t0, true⟩, [], false⟩ ∧
      loadData (initState t0) ⟨.ok none, true⟩ t0 =
        ⟨⟨allFalseJs, getTodayString t0, true⟩, [], false⟩ ∧
      loadData (initState t0) ⟨.ok (some (.value .null)), true⟩ t0 =
        ⟨⟨allFalseJs, getTodayString t0, true⟩, [], false⟩) ∧
    ((loadData (initState t0) ⟨.ok (some (.value (.num 5))), true⟩ t0).state =
        ⟨allFalseJs, getTodayString t0, true⟩ ∧
      (loadData (initState t0) ⟨.ok (some (.value (.num 5))), true⟩ t0).threw = false) :=
  ⟨(C5_malformed_fallback_amended t0 ⟨.ok (some .invalid), true⟩ ⟨.ok none, true⟩
      ⟨.ok (some (.value .null)), true⟩ (.num 5) .undefined rfl rfl rfl).1,
   (C5_malformed_fallback_amended t0 ⟨.ok (some .invalid), true⟩ ⟨.ok none, true⟩
      ⟨.ok (some (.value .null)), true⟩ (.num 5) .undefined rfl rfl rfl).2
     ⟨.ok (some (.value (.num 5))), true⟩ rfl rfl rfl⟩

/-- Claim C6 (amended): a record that parses with `date` equal to today is
restored VERBATIM: `setChecks(storedData.checks)` performs no repair, so
slot keys missing from the stored `checks` object stay absent (reading
them yields `undefined`, not `false`), and the resulting in-memory value
need not have the three boolean slots. -/
theorem C6_verbatim_load_amended (s : AppState) (env : Env) (now : Timestamp)
    (fields : List (String × JsValue))
    (hread : env.read = .ok (some (.value (.obj
      [("date", .str (getTodayString now)), ("checks", .obj fields)])))) :
    loadData s env now = ⟨⟨.obj fields, getTodayString now, true⟩, [], false⟩ := by
  obtain ⟨r, w⟩ := env
  obtain ⟨c0, l0, i0⟩ := s
  simp only at hread
  subst hread
  simp [loadData, jsGetProp, objGet, jsStrictEqStr]

/-- Counterexample to claim C6 as stated: loading the record
`{date: today, checks: {morning: true}}` leaves `lunch` and `dinner`
ABSENT (`undefined`) instead of repairing them to `false`. -/
theorem C6_no_repair_counterexample :
    (loadData (initState t0)
        ⟨.ok (some (.value (.obj [("date", .str "2024-05-01"),
          ("checks", .obj [("morning", .bool true)])]))), true⟩ t0).state.checks
      = .obj [("morning", .bool true)] ∧
    jsGetProp (.obj [("morning", .bool true)]) "lunch" = .ok .undefined ∧
    jsGetProp (.obj [("morning", .bool true)]) "dinner" = .ok .undefined := by
  exact ⟨rfl, rfl, rfl⟩

/-- Witness for the amended C6 at `t0` with a one-slot stored object. -/
theorem C6_verbatim_load_amended_witness :
    loadData s0 envC6 t0 =
      ⟨⟨.obj [("morning", .bool true)], getTodayString t0, true⟩, [], false⟩ :=
  C6_verbatim_load_amended s0 envC6 t0 [("morning", .bool true)] rfl

/-- Claim C10 (amended): every value `loadData` writes to the store is the
fresh record `{date: today(now), checks: all-false}`, and every value
`toggleCheck` writes has the exact shape `{date: today(now), checks:
{morning, lunch, dinner all boolean}}` PROVIDED the in-memory checks is a
well-formed `CheckState`; since a same-day reconcile restores a stored
`checks` object verbatim, a record with missing slots makes the next
same-day toggle write a `checks` object missing them too — see the
counterexample. -/
theorem C10_writes_wellformed_amended (s : AppState) (env : Env) (slot : TimeSlot)
    (now : Timestamp) (c : CheckState) :
    (∀ v ∈ (loadData s env now).writes, isWfRecord v (getTodayString now) = true) ∧
    (s.checks = c.toJs →
      ∀ v ∈ (toggleCheck s env slot now).writes, isWfRecord v (getTodayString now) = true) := by
  obtain ⟨r, w⟩ := env
  obtain ⟨c0, l0, i0⟩ := s
  obtain ⟨m, l, d⟩ := c
  constructor
  · rcases r with _ | (_ | (_ | sd))
    · intro v hv
      simp [loadData] at hv
    · intro v hv
      simp [loadData] at hv
    · intro v hv
      simp [loadData] at hv
    · intro v hv
      simp only [loadData] at hv
      rcases h : jsGetProp sd "date" with _ | dv <;> simp only [h] at hv
      · simp at hv
      · by_cases hsame : jsStrictEqStr dv (getTodayString now) = true
        · simp only [if_pos hsame] at hv
          rcases h2 : jsGetProp sd "checks" with _ | cc <;> simp [h2] at hv
        · simp only [if_neg hsame] at hv
          cases w
          · simp at hv
          · simp at hv
            subst hv
            simp [isWfRecord, newDataJs, allFalseJs, CheckState.toJs]
  · rintro rfl v hv
    simp only [toggleCheck] at hv
    by_cases hd : getTodayString now ≠ l0
    · simp only [if_pos hd] at hv
      cases w
      · simp at hv
      · simp at hv
        subst hv
        simp [isWfRecord, newDataJs, allFalseJs, CheckState.toJs]
    · simp only [if_neg hd] at hv
      cases slot <;>
        simp [jsGetProp, objGet, jsSpreadSet, setField, slotKey, jsNot, jsTruthy,
          CheckState.toJs] at hv
      all_goals cases w
      all_goals simp at hv
      all_goals subst hv
      all_goals simp [isWfRecord, CheckState.toJs]

/-- Counterexample to claim C10 as stated: after a same-day reconcile of
the stored record `{date: "2024-05-01", checks: {morning: true}}`, the
toggle of `lunch` writes a record whose `checks` object has only
`morning` and `lunch` — not the three required boolean fields. -/
theorem C10_partial_write_counterexample :
    (toggleCheck
        (loadData (initState t0)
          ⟨.ok (some (.value (.obj [("date", .str "2024-05-01"),
            ("checks", .obj [("morning", .bool true)])]))), true⟩ t0).state
        ⟨.ok none, true⟩ .lunch t0).writes
      = [.obj [("date", .str "2024-05-01"),
          ("checks", .obj [("morning", .bool true), ("lunch", .bool true)])]] ∧
    isWfRecord (.obj [("date", .str "2024-05-01"),
          ("checks", .obj [("morning", .bool true), ("lunch", .bool true)])]) "2024-05-01"
      = false := by
  exact ⟨rfl, rfl⟩

/-- Witness for the amended C10: the record the stale toggle at `t0`
writes is well-formed for today. -/
theorem C10_writes_wellformed_amended_witness :
    isWfRecord (newDataJs (getTodayString t0)) (getTodayString t0) = true :=
  (C10_writes_wellformed_amended sPrev envC1 .morning t0 ⟨true, false, true⟩).2 rfl
    (newDataJs (getTodayString t0)) (List.Mem.head _)
